import Mathlib

/-!
Verification of the COSMO_HEALTH front-end components.

The repository is a React single-page UI with two components that matter
to the claims: `VoiceMode.tsx` (voice-mode screen) and `ChatInterface.tsx`
(text chat panel).  Each event handler is embedded as a pure Lean function
from the component state and the outcomes of its network calls to the new
state together with a list of observable effects (HTTP requests with their
multipart form parts, toasts, speech-synthesis actions, message additions,
recorder actions).  Single-threaded, sequential JS execution is modelled by
running one handler to completion per event.
-/

namespace Cosmo

/-- One part of a multipart form body: a plain field or a file part. -/
inductive FormPart where
  | field (name value : String)
  | filePart (name filename : String)
deriving DecidableEq, Repr

/-- An HTTP POST request as issued through fetch: target URL and form parts. -/
structure Request where
  url : String
  parts : List FormPart
deriving DecidableEq, Repr

/-- Observable effects of a handler run, in the order they occur. -/
inductive Effect where
  | req (r : Request)
  | toast (title description : String)
  | speak (text lang : String)
  | cancelSpeech
  | recordStart
  | recordStop
  | addMsg (content : String) (mtype : String) (sender : String)
deriving DecidableEq, Repr

/-- Whether an effect is a request to the given URL. -/
def isReqTo (u : String) : Effect → Bool
  | .req r => r.url = u
  | _ => false

/-- How many requests to the given URL the effect list contains. -/
def countReqTo (u : String) (es : List Effect) : Nat :=
  (es.filter (isReqTo u)).length

/-- The requests to the given URL, in order. -/
def requestsTo (u : String) (es : List Effect) : List Request :=
  es.filterMap fun e => match e with
    | .req r => if r.url = u then some r else none
    | _ => none

/-- Whether an effect is a toast notification. -/
def isToast : Effect → Bool
  | .toast _ _ => true
  | _ => false

/-- How many toast notifications the effect list contains. -/
def countToasts (es : List Effect) : Nat :=
  (es.filter isToast).length

/-- The speech-synthesis utterances spoken, as (text, lang) pairs, in order. -/
def speaks (es : List Effect) : List (String × String) :=
  es.filterMap fun e => match e with
    | .speak t l => some (t, l)
    | _ => none

/-- Value of the first form field with the given name, if any. -/
def formField (name : String) : List FormPart → Option String
  | [] => none
  | .field n v :: rest => if n = name then some v else formField name rest
  | .filePart _ _ :: rest => formField name rest

/-- Whether a form part is a file part. -/
def isFilePart : FormPart → Bool
  | .filePart _ _ => true
  | _ => false

/-! ## VoiceMode.tsx -/

/-- Whether the character lies in the inclusive code-point range [lo, hi];
embeds a JS regex character-class test such as `[ऀ-ॿ]`. -/
def inRange (lo hi : Nat) (c : Char) : Bool :=
  decide (lo ≤ c.toNat) && decide (c.toNat ≤ hi)

/-- Whether the string contains a character in the inclusive range;
embeds `/[\uLO-\uHI]/.test(text)`. -/
def containsRange (lo hi : Nat) (text : String) : Bool :=
  text.data.any (inRange lo hi)

/-- Embeds `detectLanguage` of VoiceMode.tsx: a cascade of Unicode-range
regex tests returning a BCP-47 tag, defaulting to "en-IN". -/
def detectLanguage (text : String) : String :=
  if containsRange 0x0900 0x097F text then "hi-IN"
  else if containsRange 0x0900 0x097F text && text.data.any (fun c => c = 'ऱ') then "mr-IN"
  else if containsRange 0x0C80 0x0CFF text then "kn-IN"
  else if containsRange 0x0B80 0x0BFF text then "ta-IN"
  else if containsRange 0x0B00 0x0B7F text then "or-IN"
  else if containsRange 0x0980 0x09FF text then "bn-IN"
  else if containsRange 0x0A00 0x0A7F text then "pa-IN"
  else if containsRange 0x0A80 0x0AFF text then "gu-IN"
  else if containsRange 0x0D00 0x0D7F text then "ml-IN"
  else if containsRange 0x0C00 0x0C7F text then "te-IN"
  else if containsRange 0x0D80 0x0DFF text then "si-LK"
  else if containsRange 0x3040 0x309F text || containsRange 0x30A0 0x30FF text then "ja-JP"
  else if containsRange 0x4E00 0x9FFF text then "zh-CN"
  else if containsRange 0xAC00 0xD7AF text then "ko-KR"
  else "en-IN"

/-- The code-point ranges tested by `detectLanguage`, as (lo, hi) pairs. -/
def listedRanges : List (Nat × Nat) :=
  [(0x0900, 0x097F), (0x0C80, 0x0CFF), (0x0B80, 0x0BFF), (0x0B00, 0x0B7F),
   (0x0980, 0x09FF), (0x0A00, 0x0A7F), (0x0A80, 0x0AFF), (0x0D00, 0x0D7F),
   (0x0C00, 0x0C7F), (0x0D80, 0x0DFF), (0x3040, 0x309F), (0x30A0, 0x30FF),
   (0x4E00, 0x9FFF), (0xAC00, 0xD7AF)]

/-- Whether a character falls in any range tested by `detectLanguage`. -/
def inListedRange (c : Char) : Bool :=
  listedRanges.any fun p => inRange p.1 p.2 c

/-- The fixed set of tags `detectLanguage` can return. -/
def languageTags : List String :=
  ["hi-IN", "mr-IN", "kn-IN", "ta-IN", "or-IN", "bn-IN", "pa-IN", "gu-IN",
   "ml-IN", "te-IN", "si-LK", "ja-JP", "zh-CN", "ko-KR", "en-IN"]

/-- Component state of VoiceMode.tsx (useState hooks and the ref that
matters to the claims). -/
structure VMState where
  isListening : Bool
  isProcessing : Bool
  transcript : String
  response : String
  sessionId : Option String
deriving DecidableEq, Repr

/-- Initial VoiceMode state. -/
def initVMState : VMState :=
  { isListening := false, isProcessing := false, transcript := ""
    response := "", sessionId := none }

/-- Outcome of a fetch to the chat endpoint: network/parse failure, or an
HTTP response with its ok flag and the JSON reply fields. -/
inductive ChatOutcome where
  | netFail
  | http (ok : Bool) (response : String) (sessionId : String)
deriving DecidableEq, Repr

/-- Outcome of a fetch to the transcription endpoint. -/
inductive TranscribeOutcome where
  | netFail
  | http (ok : Bool) (text : String)
deriving DecidableEq, Repr

/-- Whether a transcription fetch outcome is a failure (thrown error or
non-2xx status). -/
def tFails : TranscribeOutcome → Bool
  | .netFail => true
  | .http ok _ => !ok

/-- Whether a chat fetch outcome is a failure (thrown error or non-2xx
status). -/
def cFails : ChatOutcome → Bool
  | .netFail => true
  | .http ok _ _ => !ok

/-- Chat endpoint URL used by VoiceMode.tsx. -/
def vmChatUrl : String := "http://localhost:5000/api/chat"

/-- Transcription endpoint URL used by VoiceMode.tsx. -/
def vmTranscribeUrl : String := "http://localhost:5000/api/transcribe"

/-- Form built by `handleChat` in VoiceMode.tsx:
`if (sessionId) formData.append("session_id", sessionId)` (JS truthiness:
null and the empty string are skipped), then `formData.append("message", message)`. -/
def vmChatForm (sessionId : Option String) (message : String) : List FormPart :=
  (match sessionId with
   | some sid => if sid = "" then [] else [FormPart.field "session_id" sid]
   | none => []) ++ [FormPart.field "message" message]

/-- Embeds `handleChat` of VoiceMode.tsx.  Issues the chat request; on an
ok response stores the reply and session id and speaks the reply with a
language tag detected from it; otherwise toasts and clears the processing
flag. -/
def vmHandleChat (st : VMState) (message : String) (out : ChatOutcome) :
    VMState × List Effect :=
  let reqE := Effect.req ⟨vmChatUrl, vmChatForm st.sessionId message⟩
  match out with
  | .netFail =>
      ({ st with isProcessing := false },
       [reqE, Effect.toast "Error" "Chat error"])
  | .http ok resp sid =>
      if ok then
        ({ st with response := resp, sessionId := some sid, isProcessing := false },
         [reqE, Effect.speak resp (detectLanguage resp)])
      else
        ({ st with isProcessing := false },
         [reqE, Effect.toast "Error" "Chat request failed"])

/-- Embeds `handleTranscription` of VoiceMode.tsx.  Issues the multipart
upload of the recording; on an ok response stores the transcript and awaits
`handleChat` on it; otherwise toasts and clears the processing flag. -/
def vmHandleTranscription (st : VMState) (tOut : TranscribeOutcome)
    (cOut : ChatOutcome) : VMState × List Effect :=
  let reqE := Effect.req ⟨vmTranscribeUrl, [FormPart.filePart "file" "recording.webm"]⟩
  match tOut with
  | .netFail =>
      ({ st with isProcessing := false },
       [reqE, Effect.toast "Error" "Transcription error"])
  | .http ok text =>
      if ok then
        let st1 := { st with transcript := text }
        let pc := vmHandleChat st1 text cOut
        (pc.1, reqE :: pc.2)
      else
        ({ st with isProcessing := false },
         [reqE, Effect.toast "Error" "Transcription failed"])

/-- Embeds the `onstop` callback installed by `startListening` in
VoiceMode.tsx: set the processing flag, then run `handleTranscription` on
the recorded blob. -/
def vmOnStop (st : VMState) (tOut : TranscribeOutcome) (cOut : ChatOutcome) :
    VMState × List Effect :=
  vmHandleTranscription { st with isProcessing := true } tOut cOut

/-! ### VoiceMode event machine (for the speech/recording invariant)

`speechSynthesis` is a global; its speaking/pending flags are carried next
to the component state.  Events are the user clicks on the toggle button;
a stop click runs the recorder `onstop` processing chain to completion
(the button is disabled while `isProcessing` holds, so no click interleaves
with processing on the single-threaded event loop). -/

/-- State of the global speechSynthesis object. -/
structure SpeechState where
  speaking : Bool
  pending : Bool
deriving DecidableEq, Repr

/-- VoiceMode component state together with the speech-synthesis state. -/
structure VMWorld where
  vm : VMState
  speech : SpeechState
deriving DecidableEq, Repr

/-- Initial world: fresh component, idle speech synthesis. -/
def initVMWorld : VMWorld :=
  { vm := initVMState, speech := { speaking := false, pending := false } }

/-- Effect of a handler action on the speech-synthesis state:
`speak` enqueues an utterance, `cancel` empties the queue. -/
def applySpeech (sp : SpeechState) : Effect → SpeechState
  | .speak _ _ => { speaking := true, pending := sp.pending }
  | .cancelSpeech => { speaking := false, pending := false }
  | _ => sp

/-- Fold `applySpeech` over an effect list. -/
def applySpeechAll (sp : SpeechState) (es : List Effect) : SpeechState :=
  es.foldl applySpeech sp

/-- Embeds `startListening` of VoiceMode.tsx: cancel ongoing speech if
speaking or pending, then request the microphone; on success start
recording and clear transcript and response, on denial toast. -/
def vmStartListening (w : VMWorld) (micOk : Bool) : VMWorld × List Effect :=
  let active := w.speech.speaking || w.speech.pending
  let cancelEs := if active then [Effect.cancelSpeech] else []
  let sp1 := if active then { speaking := false, pending := false } else w.speech
  if micOk then
    ({ vm := { w.vm with isListening := true, transcript := "", response := "" }
       speech := sp1 },
     cancelEs ++ [Effect.recordStart])
  else
    ({ vm := w.vm, speech := sp1 },
     cancelEs ++ [Effect.toast "Error" "Could not access microphone"])

/-- Embeds `stopListening` of VoiceMode.tsx followed by the recorder
`onstop` processing chain: stop the recorder, clear the listening flag,
cancel ongoing speech, then process the recording. -/
def vmStopAndProcess (w : VMWorld) (tOut : TranscribeOutcome) (cOut : ChatOutcome) :
    VMWorld × List Effect :=
  let active := w.speech.speaking || w.speech.pending
  let cancelEs := if active then [Effect.cancelSpeech] else []
  let sp1 := if active then { speaking := false, pending := false } else w.speech
  let vm1 := { w.vm with isListening := false }
  let pc := vmOnStop vm1 tOut cOut
  ({ vm := pc.1, speech := applySpeechAll sp1 pc.2 },
   Effect.recordStop :: cancelEs ++ pc.2)

/-- A user interaction with the VoiceMode screen. -/
inductive VMEvent where
  | startClick (micOk : Bool)
  | stopClick (tOut : TranscribeOutcome) (cOut : ChatOutcome)
deriving DecidableEq, Repr

/-- One step of the VoiceMode machine: `toggleListening` dispatches on the
listening flag; the button is inert while `isProcessing` holds. -/
def vmStep (w : VMWorld) : VMEvent → VMWorld
  | .startClick micOk =>
      if w.vm.isProcessing || w.vm.isListening then w
      else (vmStartListening w micOk).1
  | .stopClick tOut cOut =>
      if w.vm.isProcessing || !w.vm.isListening then w
      else (vmStopAndProcess w tOut cOut).1

/-- Run the VoiceMode machine from the initial world. -/
def vmRun (evts : List VMEvent) : VMWorld :=
  evts.foldl vmStep initVMWorld

/-! ### VoiceMode chat session runs (for the session-id invariant) -/

/-- Fold `handleChat` over a list of (message, outcome) interactions. -/
def vmChatRun (l : List (String × ChatOutcome)) : VMState :=
  l.foldl (fun st p => (vmHandleChat st p.1 p.2).1) initVMState

/-- The session id carried by the most recent successful chat response in
the interaction list, if any. -/
def lastSuccessSid (l : List (String × ChatOutcome)) : Option String :=
  l.foldl (fun acc p => match p.2 with
    | ChatOutcome.http true _ sid => some sid
    | _ => acc) none

/-! ## ChatInterface.tsx -/

/-- A chat message of ChatInterface.tsx.  `id` is `Date.now().toString()`
and `timestamp` the creation time, both supplied as a clock parameter. -/
structure Message where
  id : String
  content : String
  mtype : String
  sender : String
  timestamp : Nat
  fileUrl : Option String
deriving DecidableEq, Repr

/-- A chat session of ChatInterface.tsx. -/
structure Session where
  id : String
  name : String
  messages : List Message
  createdAt : Nat
deriving DecidableEq, Repr

/-- Component state of ChatInterface.tsx. -/
structure CIState where
  sessions : List Session
  activeSession : String
  inputMessage : String
  isRecording : Bool
deriving DecidableEq, Repr

/-- Initial ChatInterface state: one empty session named "New Chat". -/
def initCIState : CIState :=
  { sessions := [{ id := "1", name := "New Chat", messages := [], createdAt := 0 }]
    activeSession := "1", inputMessage := "", isRecording := false }

/-- Builds the message record `addMessage` constructs. -/
def mkMessage (now : Nat) (content mtype sender : String)
    (fileUrl : Option String) : Message :=
  { id := toString now, content := content, mtype := mtype, sender := sender
    timestamp := now, fileUrl := fileUrl }

/-- Embeds `addMessage` of ChatInterface.tsx: map over the sessions,
appending the new message to the one whose id equals the active session id. -/
def addMessage (st : CIState) (now : Nat) (content mtype sender : String)
    (fileUrl : Option String) : CIState :=
  { st with sessions := st.sessions.map fun s =>
      if s.id = st.activeSession
      then { s with messages := s.messages ++ [mkMessage now content mtype sender fileUrl] }
      else s }

/-- Chat endpoint URL used by ChatInterface.tsx. -/
def ciChatUrl : String := "https://healthcare-m3c6.onrender.com/api/chat"

/-- Transcription endpoint URL used by ChatInterface.tsx. -/
def ciTranscribeUrl : String := "https://healthcare-m3c6.onrender.com/api/transcribe"

/-- Whitespace per the ECMAScript `String.prototype.trim` classes
(ASCII whitespace, NBSP, BOM; sufficient for the inputs modelled here). -/
def isJsWS (c : Char) : Bool :=
  c.toNat = 0x9 || c.toNat = 0xA || c.toNat = 0xB || c.toNat = 0xC ||
  c.toNat = 0xD || c.toNat = 0x20 || c.toNat = 0xA0 || c.toNat = 0xFEFF

/-- Embeds `inputMessage.trim()`: strip leading and trailing whitespace. -/
def jsTrim (s : String) : String :=
  ⟨((s.data.dropWhile isJsWS).reverse.dropWhile isJsWS).reverse⟩

/-- Embeds `handleSendMessage` of ChatInterface.tsx.  A falsy (empty)
trimmed input returns immediately; otherwise the trimmed text is appended
as a user message, the input cleared, and the chat request issued with the
captured session id; an ok response appends the bot reply, failures toast.
`now` and `botNow` are the clock readings at the two `Date.now()` calls. -/
def handleSendMessage (st : CIState) (now botNow : Nat) (out : ChatOutcome) :
    CIState × List Effect :=
  if jsTrim st.inputMessage = "" then (st, [])
  else
    let userText := jsTrim st.inputMessage
    let st1 := { addMessage st now userText "text" "user" none with inputMessage := "" }
    let reqE := Effect.req ⟨ciChatUrl,
      [FormPart.field "session_id" st.activeSession, FormPart.field "message" userText]⟩
    let addU := Effect.addMsg userText "text" "user"
    match out with
    | .netFail =>
        (st1, [addU, reqE, Effect.toast "Error" "Failed to connect to chatbot"])
    | .http ok resp _ =>
        if ok then
          (addMessage st1 botNow resp "text" "bot" none,
           [addU, reqE, Effect.addMsg resp "text" "bot"])
        else
          (st1, [addU, reqE, Effect.toast "Error" "Chat failed"])

/-- Embeds `handleFileUpload` of ChatInterface.tsx: no selected file is a
no-op; otherwise an image message is appended and the file posted to the
chat endpoint; an ok response appends the bot reply, failures toast. -/
def handleFileUpload (st : CIState) (now botNow : Nat) (hasFile : Bool)
    (url fname : String) (out : ChatOutcome) : CIState × List Effect :=
  if !hasFile then (st, [])
  else
    let st1 := addMessage st now "Image uploaded" "image" "user" (some url)
    let reqE := Effect.req ⟨ciChatUrl,
      [FormPart.field "session_id" st.activeSession, FormPart.filePart "file" fname]⟩
    let addU := Effect.addMsg "Image uploaded" "image" "user"
    match out with
    | .netFail =>
        (st1, [addU, reqE, Effect.toast "Error" "Could not send image"])
    | .http ok resp _ =>
        if ok then
          (addMessage st1 botNow resp "text" "bot" none,
           [addU, reqE, Effect.addMsg resp "text" "bot"])
        else
          (st1, [addU, reqE, Effect.toast "Error" "Image processing failed"])

/-- Embeds `startVoiceRecording` of ChatInterface.tsx up to the recorder
start: on microphone denial only a toast. -/
def ciStartVoice (st : CIState) (micOk : Bool) : CIState × List Effect :=
  if micOk then ({ st with isRecording := true }, [Effect.recordStart])
  else (st, [Effect.toast "Error" "Could not access microphone"])

/-- Embeds the recorder `onstop` callback of `startVoiceRecording` in
ChatInterface.tsx: append the voice message, upload the blob to the
transcription endpoint; if the response is ok and `data.text` truthy,
append it as a user message and forward it to the chat endpoint, appending
the bot reply only when that response is ok (a non-ok chat response is
silently dropped); a non-ok or text-less transcription response toasts
"Transcription failed"; a thrown fetch or parse error toasts
"Voice upload failed". -/
def ciVoiceOnStop (st : CIState) (now1 now2 botNow : Nat) (url : String)
    (tOut : TranscribeOutcome) (cOut : ChatOutcome) : CIState × List Effect :=
  let st1 := addMessage st now1 "Voice message" "voice" "user" (some url)
  let addV := Effect.addMsg "Voice message" "voice" "user"
  let reqT := Effect.req ⟨ciTranscribeUrl, [FormPart.filePart "file" "voice.webm"]⟩
  match tOut with
  | .netFail =>
      (st1, [addV, reqT, Effect.toast "Error" "Voice upload failed"])
  | .http ok text =>
      if ok && text != "" then
        let st2 := addMessage st1 now2 text "text" "user" none
        let addU := Effect.addMsg text "text" "user"
        let reqC := Effect.req ⟨ciChatUrl,
          [FormPart.field "session_id" st.activeSession, FormPart.field "message" text]⟩
        match cOut with
        | .netFail =>
            (st2, [addV, reqT, addU, reqC, Effect.toast "Error" "Voice upload failed"])
        | .http cok resp _ =>
            if cok then
              (addMessage st2 botNow resp "text" "bot" none,
               [addV, reqT, addU, reqC, Effect.addMsg resp "text" "bot"])
            else
              (st2, [addV, reqT, addU, reqC])
      else
        (st1, [addV, reqT, Effect.toast "Error" "Transcription failed"])

/-- A record-then-stop cycle of the chat-panel voice recorder: click record
(`startVoiceRecording`), then click stop (`stopVoiceRecording`, which fires
the recorder `onstop` when a recording is in progress). -/
def ciRecordStopCycle (st : CIState) (micOk : Bool) (now1 now2 botNow : Nat)
    (url : String) (tOut : TranscribeOutcome) (cOut : ChatOutcome) :
    CIState × List Effect :=
  let pc := ciStartVoice st micOk
  if pc.1.isRecording then
    let pc2 := ciVoiceOnStop { pc.1 with isRecording := false } now1 now2 botNow url tOut cOut
    (pc2.1, pc.2 ++ Effect.recordStop :: pc2.2)
  else (pc.1, pc.2)

/-! ## Theorems -/

/-- Helper: a string none of whose characters lie in a listed range fails
every `containsRange` test of `detectLanguage`. -/
theorem containsRange_eq_false {s : String} (h : ∀ c ∈ s.data, inListedRange c = false)
    {lo hi : Nat} (hmem : (lo, hi) ∈ listedRanges) : containsRange lo hi s = false := by
  unfold containsRange
  rw [List.any_eq_false]
  intro c hc
  have hcl := h c hc
  unfold inListedRange at hcl
  rw [List.any_eq_false] at hcl
  simpa using hcl (lo, hi) hmem

/-- Helper: an if-then-else of list members is a list member. -/
theorem mem_ite {α : Type} {l : List α} {c : Prop} [Decidable c] {a b : α}
    (ha : a ∈ l) (hb : b ∈ l) : (if c then a else b) ∈ l := by
  by_cases h : c
  · simpa [h]
  · simpa [h]

/-- Helper: an if-then-else of values different from x differs from x. -/
theorem ite_ne {α : Type} {c : Prop} [Decidable c] {a b x : α}
    (ha : a ≠ x) (hb : b ≠ x) : (if c then a else b) ≠ x := by
  by_cases h : c
  · simpa [h]
  · simpa [h]

/-- The language detector only produces tags from the fixed set. -/
theorem detectLanguage_mem_tags (s : String) : detectLanguage s ∈ languageTags := by
  unfold detectLanguage
  repeat' apply mem_ite
  all_goals decide

/-- The language detector defaults to "en-IN" when no character of the
input lies in a tested script range. -/
theorem detectLanguage_default (s : String)
    (h : ∀ c ∈ s.data, inListedRange c = false) : detectLanguage s = "en-IN" := by
  have key : ∀ lo hi : Nat, (lo, hi) ∈ listedRanges → containsRange lo hi s = false :=
    fun lo hi hm => containsRange_eq_false h hm
  unfold detectLanguage
  rw [key 0x0900 0x097F (by decide), key 0x0C80 0x0CFF (by decide),
      key 0x0B80 0x0BFF (by decide), key 0x0B00 0x0B7F (by decide),
      key 0x0980 0x09FF (by decide), key 0x0A00 0x0A7F (by decide),
      key 0x0A80 0x0AFF (by decide), key 0x0D00 0x0D7F (by decide),
      key 0x0C00 0x0C7F (by decide), key 0x0D80 0x0DFF (by decide),
      key 0x3040 0x309F (by decide), key 0x30A0 0x30FF (by decide),
      key 0x4E00 0x9FFF (by decide), key 0xAC00 0xD7AF (by decide)]
  simp

/-- The Marathi branch is dead: its guard repeats the Devanagari test of
the preceding Hindi branch, which already captured every such input. -/
theorem detectLanguage_ne_mr (s : String) : detectLanguage s ≠ "mr-IN" := by
  unfold detectLanguage
  cases hx : containsRange 0x0900 0x097F s with
  | true => simp
  | false =>
    simp only [Bool.false_and, Bool.false_eq_true, if_false]
    repeat' apply ite_ne
    all_goals decide

/-- C9: the language detector is a total function into the fixed tag set,
returns "en-IN" whenever no character lies in a listed script range, and
never returns "mr-IN" because the Marathi guard is dominated by the
preceding Hindi guard over the same Devanagari range. -/
theorem detectLanguage_total_default_no_marathi :
    (∀ s : String, detectLanguage s ∈ languageTags) ∧
    (∀ s : String, (∀ c ∈ s.data, inListedRange c = false) → detectLanguage s = "en-IN") ∧
    (∀ s : String, detectLanguage s ≠ "mr-IN") :=
  ⟨detectLanguage_mem_tags, detectLanguage_default, detectLanguage_ne_mr⟩

/-- Witness for C9: a plain ASCII string is detected as "en-IN". -/
theorem detectLanguage_total_default_no_marathi_witness :
    detectLanguage "hello" = "en-IN" :=
  detectLanguage_total_default_no_marathi.2.1 "hello" (by decide)

/-- C8: on an ok chat response in voice mode, the reply is spoken exactly
once, verbatim, with the language tag detected from that same reply; no
failing outcome speaks. -/
theorem vmHandleChat_speaks_reply_verbatim :
    ∀ (st : VMState) (m r sid : String),
      speaks (vmHandleChat st m (ChatOutcome.http true r sid)).2 = [(r, detectLanguage r)] ∧
      speaks (vmHandleChat st m ChatOutcome.netFail).2 = [] ∧
      speaks (vmHandleChat st m (ChatOutcome.http false r sid)).2 = [] := by
  intro st m r sid
  refine ⟨rfl, rfl, rfl⟩

/-- Helper for C10: a string all of whose characters are whitespace trims
to the empty string. -/
theorem jsTrim_eq_empty {s : String} (h : ∀ c ∈ s.data, isJsWS c = true) :
    jsTrim s = "" := by
  have h1 : s.data.dropWhile isJsWS = [] :=
    List.dropWhile_eq_nil_iff.mpr (by intro c hc; simpa using h c hc)
  unfold jsTrim
  rw [h1]
  rfl

/-- C10: sending with an empty or whitespace-only input changes no state
and produces no effect. -/
theorem handleSendMessage_blank_noop (st : CIState) (now botNow : Nat)
    (out : ChatOutcome) (h : ∀ c ∈ st.inputMessage.data, isJsWS c = true) :
    handleSendMessage st now botNow out = (st, []) := by
  unfold handleSendMessage
  rw [jsTrim_eq_empty h]
  simp

/-- Witness for C10: a single-space input is a no-op. -/
theorem handleSendMessage_blank_noop_witness :
    handleSendMessage { initCIState with inputMessage := " " } 5 6 ChatOutcome.netFail
      = ({ initCIState with inputMessage := " " }, []) :=
  handleSendMessage_blank_noop _ 5 6 _ (by decide)

/-! ### Evaluation lemmas for the effect-trace observers -/

theorem isReqTo_same (u : String) (ps : List FormPart) :
    isReqTo u (Effect.req ⟨u, ps⟩) = true := by
  simp [isReqTo]

theorem isReqTo_ci_chat (ps : List FormPart) :
    isReqTo ciTranscribeUrl (Effect.req ⟨ciChatUrl, ps⟩) = false := rfl

theorem isReqTo_ci_trans (ps : List FormPart) :
    isReqTo ciChatUrl (Effect.req ⟨ciTranscribeUrl, ps⟩) = false := rfl

theorem isReqTo_vm_chat (ps : List FormPart) :
    isReqTo vmTranscribeUrl (Effect.req ⟨vmChatUrl, ps⟩) = false := rfl

theorem isReqTo_vm_trans (ps : List FormPart) :
    isReqTo vmChatUrl (Effect.req ⟨vmTranscribeUrl, ps⟩) = false := rfl

theorem isReqTo_toast (u t d : String) : isReqTo u (Effect.toast t d) = false := rfl

theorem isReqTo_speak (u t l : String) : isReqTo u (Effect.speak t l) = false := rfl

theorem isReqTo_cancel (u : String) : isReqTo u Effect.cancelSpeech = false := rfl

theorem isReqTo_recordStart (u : String) : isReqTo u Effect.recordStart = false := rfl

theorem isReqTo_recordStop (u : String) : isReqTo u Effect.recordStop = false := rfl

theorem isReqTo_addMsg (u c m s : String) : isReqTo u (Effect.addMsg c m s) = false := rfl

theorem countReqTo_nil (u : String) : countReqTo u [] = 0 := rfl

theorem countReqTo_cons (u : String) (e : Effect) (es : List Effect) :
    countReqTo u (e :: es) =
      (if isReqTo u e then 1 else 0) + countReqTo u es := by
  unfold countReqTo
  rw [List.filter_cons]
  split <;> simp [Nat.add_comm]

theorem countToasts_nil : countToasts [] = 0 := rfl

theorem countToasts_cons (e : Effect) (es : List Effect) :
    countToasts (e :: es) = (if isToast e then 1 else 0) + countToasts es := by
  unfold countToasts
  rw [List.filter_cons]
  split <;> simp [Nat.add_comm]

theorem isToast_toast (t d : String) : isToast (Effect.toast t d) = true := rfl

theorem isToast_req (r : Request) : isToast (Effect.req r) = false := rfl

theorem isToast_speak (t l : String) : isToast (Effect.speak t l) = false := rfl

theorem isToast_cancel : isToast Effect.cancelSpeech = false := rfl

theorem isToast_recordStart : isToast Effect.recordStart = false := rfl

theorem isToast_recordStop : isToast Effect.recordStop = false := rfl

theorem isToast_addMsg (c m s : String) : isToast (Effect.addMsg c m s) = false := rfl

theorem requestsTo_nil (u : String) : requestsTo u [] = [] := rfl

theorem requestsTo_cons_same (u : String) (ps : List FormPart) (es : List Effect) :
    requestsTo u (Effect.req ⟨u, ps⟩ :: es) = ⟨u, ps⟩ :: requestsTo u es := by
  simp [requestsTo, List.filterMap_cons]

theorem requestsTo_cons_other (u : String) (e : Effect) (es : List Effect)
    (h : isReqTo u e = false) : requestsTo u (e :: es) = requestsTo u es := by
  cases e <;> simp_all [requestsTo, List.filterMap_cons, isReqTo]

/-- C4: a record-then-stop cycle of the chat-panel voice recorder (with the
microphone granted) issues exactly one request to the transcription
endpoint, whatever the outcomes of the network calls. -/
theorem ciRecordStopCycle_one_upload (st : CIState) (n1 n2 bn : Nat)
    (url : String) (tOut : TranscribeOutcome) (cOut : ChatOutcome) :
    countReqTo ciTranscribeUrl (ciRecordStopCycle st true n1 n2 bn url tOut cOut).2 = 1 := by
  cases tOut with
  | netFail =>
      simp [ciRecordStopCycle, ciStartVoice, ciVoiceOnStop, countReqTo_cons,
            countReqTo_nil, isReqTo_same, isReqTo_ci_chat, isReqTo_addMsg,
            isReqTo_toast, isReqTo_recordStart, isReqTo_recordStop]
  | http ok text =>
      cases ok with
      | false =>
          simp [ciRecordStopCycle, ciStartVoice, ciVoiceOnStop, countReqTo_cons,
                countReqTo_nil, isReqTo_same, isReqTo_ci_chat, isReqTo_addMsg,
                isReqTo_toast, isReqTo_recordStart, isReqTo_recordStop]
      | true =>
          by_cases ht : text = ""
          · simp [ciRecordStopCycle, ciStartVoice, ciVoiceOnStop, countReqTo_cons,
                  countReqTo_nil, isReqTo_same, isReqTo_ci_chat, isReqTo_addMsg,
                  isReqTo_toast, isReqTo_recordStart, isReqTo_recordStop, ht]
          · cases cOut with
            | netFail =>
                simp [ciRecordStopCycle, ciStartVoice, ciVoiceOnStop, countReqTo_cons,
                      countReqTo_nil, isReqTo_same, isReqTo_ci_chat, isReqTo_addMsg,
                      isReqTo_toast, isReqTo_recordStart, isReqTo_recordStop, ht]
            | http cok resp sid =>
                cases cok <;>
                  simp [ciRecordStopCycle, ciStartVoice, ciVoiceOnStop, countReqTo_cons,
                        countReqTo_nil, isReqTo_same, isReqTo_ci_chat, isReqTo_addMsg,
                        isReqTo_toast, isReqTo_recordStart, isReqTo_recordStop, ht]

/-- Helper: mapping the conditional append over sessions none of which has
the target id changes nothing. -/
theorem map_append_noop {l : List Session} {a : String} {m : Message}
    (h : ∀ s ∈ l, s.id ≠ a) :
    l.map (fun s => if s.id = a then { s with messages := s.messages ++ [m] } else s) = l := by
  induction l with
  | nil => rfl
  | cons x xs ih =>
      have hx : x.id ≠ a := h x (by simp)
      simp only [List.map_cons, if_neg hx, List.cons.injEq, true_and]
      exact ih fun s hs => h s (by simp [hs])

/-- Helper: with distinct session ids and the target id present, the
conditional append grows the total message count by exactly one. -/
theorem sum_lengths_append {l : List Session} {a : String} (m : Message)
    (hnd : (l.map Session.id).Nodup) (hmem : a ∈ l.map Session.id) :
    ((l.map (fun s => if s.id = a then { s with messages := s.messages ++ [m] } else s)).map
        (fun s => s.messages.length)).sum
      = ((l.map fun s => s.messages.length)).sum + 1 := by
  induction l with
  | nil => simp at hmem
  | cons x xs ih =>
      simp only [List.map_cons, List.nodup_cons, List.mem_cons] at hnd hmem
      by_cases hx : x.id = a
      · have hnot : ∀ s ∈ xs, s.id ≠ a := by
          intro s hs he
          apply hnd.1
          rw [hx, ← he]
          exact List.mem_map_of_mem Session.id hs
        rw [List.map_cons, if_pos hx, map_append_noop hnot]
        simp only [List.map_cons, List.sum_cons, List.length_append, List.length_cons,
                   List.length_nil]
        omega
      · have hmem2 : a ∈ xs.map Session.id := by
          rcases hmem with h1 | h1
          · exact absurd h1.symm hx
          · exact h1
        rw [List.map_cons, if_neg hx]
        simp only [List.map_cons, List.sum_cons, ih hnd.2 hmem2]
        omega

/-- C5: `addMessage` appends the new message to the end of the message
list of exactly one session (the active one, unique by the id hypotheses),
leaves every other session untouched at its position, preserves the
session count, and grows the total number of messages by exactly one. -/
theorem addMessage_appends_exactly_one (st : CIState) (now : Nat)
    (content mtype sender : String) (fileUrl : Option String)
    (hnd : (st.sessions.map Session.id).Nodup)
    (hmem : st.activeSession ∈ st.sessions.map Session.id) :
    ((addMessage st now content mtype sender fileUrl).sessions.length = st.sessions.length) ∧
    (∀ i : Nat, ∀ s : Session, st.sessions[i]? = some s → s.id ≠ st.activeSession →
        (addMessage st now content mtype sender fileUrl).sessions[i]? = some s) ∧
    (∀ i : Nat, ∀ s : Session, st.sessions[i]? = some s → s.id = st.activeSession →
        (addMessage st now content mtype sender fileUrl).sessions[i]? =
          some { s with messages := s.messages ++ [mkMessage now content mtype sender fileUrl] }) ∧
    (((addMessage st now content mtype sender fileUrl).sessions.map
        (fun s => s.messages.length)).sum
      = ((st.sessions.map fun s => s.messages.length)).sum + 1) := by
  refine ⟨by simp [addMessage], ?_, ?_, ?_⟩
  · intro i s hi hne
    show (st.sessions.map _)[i]? = some s
    rw [List.getElem?_map, hi]
    simp [hne]
  · intro i s hi he
    show (st.sessions.map _)[i]? = _
    rw [List.getElem?_map, hi]
    simp [he]
  · exact sum_lengths_append _ hnd hmem

/-- Witness for C5: adding to the initial single-session state appends the
message to that session. -/
theorem addMessage_appends_exactly_one_witness :
    (addMessage initCIState 7 "hi" "text" "user" none).sessions[0]? =
      some { id := "1", name := "New Chat",
             messages := [mkMessage 7 "hi" "text" "user" none], createdAt := 0 } := by
  have h := addMessage_appends_exactly_one initCIState 7 "hi" "text" "user" none
    (by decide) (by decide)
  have hb := h.2.2.1 0 { id := "1", name := "New Chat", messages := [], createdAt := 0 }
    (by rfl) (by rfl)
  simpa using hb

/-- Helper: the chat form always carries the message under "message". -/
theorem formField_message_vmChatForm (sid : Option String) (m : String) :
    formField "message" (vmChatForm sid m) = some m := by
  cases sid with
  | none => rfl
  | some s => by_cases h : s = "" <;> simp [vmChatForm, h, formField]

/-- Helper: chat requests issued by the voice-mode flow on an ok
transcription: exactly the one built from the stored session id and the
transcribed text. -/
theorem requestsTo_vm_ok (st : VMState) (t : String) (cOut : ChatOutcome) :
    requestsTo vmChatUrl (vmHandleTranscription st (TranscribeOutcome.http true t) cOut).2
      = [⟨vmChatUrl, vmChatForm st.sessionId t⟩] := by
  cases cOut with
  | netFail =>
      simp [vmHandleTranscription, vmHandleChat, requestsTo_cons_same,
            requestsTo_cons_other, requestsTo_nil, isReqTo_vm_trans,
            isReqTo_toast, isReqTo_speak]
  | http cok r s =>
      cases cok <;>
        simp [vmHandleTranscription, vmHandleChat, requestsTo_cons_same,
              requestsTo_cons_other, requestsTo_nil, isReqTo_vm_trans,
              isReqTo_toast, isReqTo_speak]

/-- Helper: no chat request is issued by the voice-mode flow on a failed
transcription fetch. -/
theorem requestsTo_vm_netFail (st : VMState) (cOut : ChatOutcome) :
    requestsTo vmChatUrl (vmHandleTranscription st TranscribeOutcome.netFail cOut).2 = [] := by
  simp [vmHandleTranscription, requestsTo_cons_other, requestsTo_nil,
        isReqTo_vm_trans, isReqTo_toast]

/-- Helper: no chat request is issued by the voice-mode flow on a non-2xx
transcription response. -/
theorem requestsTo_vm_notOk (st : VMState) (t : String) (cOut : ChatOutcome) :
    requestsTo vmChatUrl (vmHandleTranscription st (TranscribeOutcome.http false t) cOut).2 = [] := by
  simp [vmHandleTranscription, requestsTo_cons_other, requestsTo_nil,
        isReqTo_vm_trans, isReqTo_toast]

/-- Helper: chat requests issued by the chat-panel voice flow on an ok
transcription with truthy text: exactly the one carrying the session id
and the transcribed text. -/
theorem requestsTo_ci_ok (ci : CIState) (n1 n2 bn : Nat) (url t : String)
    (cOut : ChatOutcome) (ht : t ≠ "") :
    requestsTo ciChatUrl (ciVoiceOnStop ci n1 n2 bn url (TranscribeOutcome.http true t) cOut).2
      = [⟨ciChatUrl, [FormPart.field "session_id" ci.activeSession,
                      FormPart.field "message" t]⟩] := by
  cases cOut with
  | netFail =>
      simp [ciVoiceOnStop, requestsTo_cons_same, requestsTo_cons_other,
            requestsTo_nil, isReqTo_ci_trans, isReqTo_toast, isReqTo_addMsg, ht]
  | http cok r s =>
      cases cok <;>
        simp [ciVoiceOnStop, requestsTo_cons_same, requestsTo_cons_other,
              requestsTo_nil, isReqTo_ci_trans, isReqTo_toast, isReqTo_addMsg, ht]

/-- Helper: no chat request is issued by the chat-panel voice flow when the
transcription fetch throws, returns non-2xx, or returns empty text. -/
theorem requestsTo_ci_none (ci : CIState) (n1 n2 bn : Nat) (url : String)
    (tOut : TranscribeOutcome) (cOut : ChatOutcome)
    (h : ∀ t : String, t ≠ "" → tOut ≠ TranscribeOutcome.http true t) :
    requestsTo ciChatUrl (ciVoiceOnStop ci n1 n2 bn url tOut cOut).2 = [] := by
  cases tOut with
  | netFail =>
      simp [ciVoiceOnStop, requestsTo_cons_other, requestsTo_nil,
            isReqTo_ci_trans, isReqTo_toast, isReqTo_addMsg]
  | http ok t =>
      cases ok with
      | false =>
          simp [ciVoiceOnStop, requestsTo_cons_other, requestsTo_nil,
                isReqTo_ci_trans, isReqTo_toast, isReqTo_addMsg]
      | true =>
          have ht : t = "" := by
            by_contra hne
            exact h t hne rfl
          subst ht
          simp [ciVoiceOnStop, requestsTo_cons_other, requestsTo_nil,
                isReqTo_ci_trans, isReqTo_toast, isReqTo_addMsg]

/-- C2: in both voice flows, a chat request exists in the effect trace only
when the transcription call returned ok, and then its message field is
exactly the text of the transcription response; failed or non-2xx
transcriptions issue no chat request. -/
theorem chat_request_only_after_transcription (st : VMState) (ci : CIState)
    (n1 n2 bn : Nat) (url : String) (tOut : TranscribeOutcome) (cOut : ChatOutcome) :
    (∀ r ∈ requestsTo vmChatUrl (vmHandleTranscription st tOut cOut).2,
        ∃ t, tOut = TranscribeOutcome.http true t ∧ formField "message" r.parts = some t) ∧
    (∀ r ∈ requestsTo ciChatUrl (ciVoiceOnStop ci n1 n2 bn url tOut cOut).2,
        ∃ t, tOut = TranscribeOutcome.http true t ∧ formField "message" r.parts = some t) ∧
    ((∀ t : String, tOut ≠ TranscribeOutcome.http true t) →
        requestsTo vmChatUrl (vmHandleTranscription st tOut cOut).2 = [] ∧
        requestsTo ciChatUrl (ciVoiceOnStop ci n1 n2 bn url tOut cOut).2 = []) := by
  refine ⟨?_, ?_, ?_⟩
  · intro r hr
    cases tOut with
    | netFail => rw [requestsTo_vm_netFail] at hr; exact absurd hr (List.not_mem_nil r)
    | http ok t =>
        cases ok with
        | false => rw [requestsTo_vm_notOk] at hr; exact absurd hr (List.not_mem_nil r)
        | true =>
            rw [requestsTo_vm_ok] at hr
            have := List.mem_singleton.mp hr
            subst this
            exact ⟨t, rfl, formField_message_vmChatForm _ _⟩
  · intro r hr
    cases tOut with
    | netFail =>
        rw [requestsTo_ci_none _ _ _ _ _ _ _ (by intro t _ h; cases h)] at hr
        exact absurd hr (List.not_mem_nil r)
    | http ok t =>
        cases ok with
        | false =>
            rw [requestsTo_ci_none _ _ _ _ _ _ _ (by intro t _ h; cases h)] at hr
            exact absurd hr (List.not_mem_nil r)
        | true =>
            by_cases ht : t = ""
            · subst ht
              rw [requestsTo_ci_none _ _ _ _ _ _ _
                    (by intro t htne h; cases h; exact htne rfl)] at hr
              exact absurd hr (List.not_mem_nil r)
            · rw [requestsTo_ci_ok _ _ _ _ _ _ _ ht] at hr
              have := List.mem_singleton.mp hr
              subst this
              refine ⟨t, rfl, by simp [formField]⟩
  · intro hno
    constructor
    · cases tOut with
      | netFail => exact requestsTo_vm_netFail _ _
      | http ok t =>
          cases ok with
          | false => exact requestsTo_vm_notOk _ _ _
          | true => exact absurd rfl (hno t)
    · exact requestsTo_ci_none _ _ _ _ _ _ _ fun t _ h => hno t h

/-- Witness for C2: an ok transcription with text "hi" yields a chat
request carrying exactly "hi" as its message field. -/
theorem chat_request_only_after_transcription_witness :
    ∃ t, TranscribeOutcome.http true "hi" = TranscribeOutcome.http true t ∧
      formField "message" [FormPart.field "message" "hi"] = some t :=
  (chat_request_only_after_transcription initVMState initCIState 1 2 3 "u"
      (TranscribeOutcome.http true "hi") ChatOutcome.netFail).1
    ⟨vmChatUrl, [FormPart.field "message" "hi"]⟩ (by decide)

/-- Counterexample to C6 as stated: a 2xx transcription response whose
text field is empty is not appended as a user message by the chat panel;
the flow raises the "Transcription failed" toast instead. -/
theorem transcription_empty_text_counterexample :
    Effect.addMsg "" "text" "user"
        ∉ (ciVoiceOnStop initCIState 1 2 3 "u"
            (TranscribeOutcome.http true "") ChatOutcome.netFail).2 ∧
    countToasts (ciVoiceOnStop initCIState 1 2 3 "u"
        (TranscribeOutcome.http true "") ChatOutcome.netFail).2 = 1 := by
  decide

/-- C6 (amended): every transcription request of either flow is a
multipart form whose body is exactly one file part; on an ok response the
text becomes the voice-mode transcript, and the chat panel appends it as a
user message when it is non-empty (an empty text is treated as a failure). -/
theorem transcription_one_file_part_and_text_used (st : VMState) (ci : CIState)
    (n1 n2 bn : Nat) (url t : String) (tOut : TranscribeOutcome) (cOut : ChatOutcome) :
    (∀ r ∈ requestsTo vmTranscribeUrl (vmHandleTranscription st tOut cOut).2,
        r.parts = [FormPart.filePart "file" "recording.webm"]) ∧
    (∀ r ∈ requestsTo ciTranscribeUrl (ciVoiceOnStop ci n1 n2 bn url tOut cOut).2,
        r.parts = [FormPart.filePart "file" "voice.webm"]) ∧
    ((vmHandleTranscription st (TranscribeOutcome.http true t) cOut).1.transcript = t) ∧
    (t ≠ "" → Effect.addMsg t "text" "user"
        ∈ (ciVoiceOnStop ci n1 n2 bn url (TranscribeOutcome.http true t) cOut).2) := by
  refine ⟨?_, ?_, ?_, ?_⟩
  · intro r hr
    have hsingle : requestsTo vmTranscribeUrl (vmHandleTranscription st tOut cOut).2
        = [⟨vmTranscribeUrl, [FormPart.filePart "file" "recording.webm"]⟩] := by
      cases tOut with
      | netFail =>
          simp [vmHandleTranscription, requestsTo_cons_same, requestsTo_cons_other,
                requestsTo_nil, isReqTo_vm_chat, isReqTo_toast]
      | http ok tx =>
          cases ok with
          | false =>
              simp [vmHandleTranscription, requestsTo_cons_same, requestsTo_cons_other,
                    requestsTo_nil, isReqTo_vm_chat, isReqTo_toast]
          | true =>
              cases cOut with
              | netFail =>
                  simp [vmHandleTranscription, vmHandleChat, requestsTo_cons_same,
                        requestsTo_cons_other, requestsTo_nil, isReqTo_vm_chat,
                        isReqTo_toast, isReqTo_speak]
              | http cok r2 s2 =>
                  cases cok <;>
                    simp [vmHandleTranscription, vmHandleChat, requestsTo_cons_same,
                          requestsTo_cons_other, requestsTo_nil, isReqTo_vm_chat,
                          isReqTo_toast, isReqTo_speak]
    rw [hsingle] at hr
    have := List.mem_singleton.mp hr
    subst this
    rfl
  · intro r hr
    have hsingle : requestsTo ciTranscribeUrl (ciVoiceOnStop ci n1 n2 bn url tOut cOut).2
        = [⟨ciTranscribeUrl, [FormPart.filePart "file" "voice.webm"]⟩] := by
      cases tOut with
      | netFail =>
          simp [ciVoiceOnStop, requestsTo_cons_same, requestsTo_cons_other,
                requestsTo_nil, isReqTo_ci_chat, isReqTo_toast, isReqTo_addMsg]
      | http ok tx =>
          cases ok with
          | false =>
              simp [ciVoiceOnStop, requestsTo_cons_same, requestsTo_cons_other,
                    requestsTo_nil, isReqTo_ci_chat, isReqTo_toast, isReqTo_addMsg]
          | true =>
              by_cases htx : tx = ""
              · simp [ciVoiceOnStop, htx, requestsTo_cons_same, requestsTo_cons_other,
                      requestsTo_nil, isReqTo_ci_chat, isReqTo_toast, isReqTo_addMsg]
              · cases cOut with
                | netFail =>
                    simp [ciVoiceOnStop, htx, requestsTo_cons_same, requestsTo_cons_other,
                          requestsTo_nil, isReqTo_ci_chat, isReqTo_toast, isReqTo_addMsg]
                | http cok r2 s2 =>
                    cases cok <;>
                      simp [ciVoiceOnStop, htx, requestsTo_cons_same, requestsTo_cons_other,
                            requestsTo_nil, isReqTo_ci_chat, isReqTo_toast, isReqTo_addMsg]
    rw [hsingle] at hr
    have := List.mem_singleton.mp hr
    subst this
    rfl
  · cases cOut with
    | netFail => rfl
    | http cok r2 s2 => cases cok <;> rfl
  · intro ht
    cases cOut with
    | netFail => simp [ciVoiceOnStop, ht]
    | http cok r2 s2 => cases cok <;> simp [ciVoiceOnStop, ht]

/-- Witness for C6: with text "hi" the chat panel appends it as a user
message. -/
theorem transcription_one_file_part_and_text_used_witness :
    Effect.addMsg "hi" "text" "user"
        ∈ (ciVoiceOnStop initCIState 1 2 3 "u"
            (TranscribeOutcome.http true "hi") ChatOutcome.netFail).2 :=
  (transcription_one_file_part_and_text_used initVMState initCIState 1 2 3 "u" "hi"
      TranscribeOutcome.netFail ChatOutcome.netFail).2.2.2 (by decide)

/-- Helper: across any run of voice-mode chat interactions, the stored
session id is the one supplied by the most recent successful response. -/
theorem vmChatRun_sessionId (l : List (String × ChatOutcome)) :
    (vmChatRun l).sessionId = lastSuccessSid l := by
  suffices h : ∀ st : VMState,
      (l.foldl (fun st p => (vmHandleChat st p.1 p.2).1) st).sessionId
        = l.foldl (fun acc p => match p.2 with
            | ChatOutcome.http true _ sid => some sid
            | _ => acc) st.sessionId by
    exact h initVMState
  induction l with
  | nil => intro st; rfl
  | cons p ps ih =>
      intro st
      simp only [List.foldl_cons]
      rw [ih]
      congr 1
      rcases p with ⟨m, out⟩
      cases out with
      | netFail => rfl
      | http ok r sid => cases ok <;> rfl

/-- Helper: the chat form carries a session_id field exactly when the
stored session id is a non-empty string (JS truthiness). -/
theorem formField_sid_isSome (sid : Option String) (m : String) :
    (formField "session_id" (vmChatForm sid m)).isSome = true
      ↔ ∃ s, sid = some s ∧ s ≠ "" := by
  cases sid with
  | none => simp [vmChatForm, formField]
  | some s => by_cases h : s = "" <;> simp [vmChatForm, formField, h]

/-- Counterexample to C1 as stated: when a successful chat response
supplies the empty string as session id, the id is stored, yet the next
request contains no session_id field (the JS truthiness guard skips it),
so "contains session_id iff a previous successful response supplied a
session id" fails. -/
theorem vm_session_id_empty_counterexample :
    (vmChatRun [("m", ChatOutcome.http true "r" "")]).sessionId = some "" ∧
    requestsTo vmChatUrl
        (vmHandleChat (vmChatRun [("m", ChatOutcome.http true "r" "")]) "m2"
          ChatOutcome.netFail).2
      = [⟨vmChatUrl, [FormPart.field "message" "m2"]⟩] := by
  decide

/-- C1 (amended): after any run of voice-mode chat interactions, the next
chat request is a single multipart form that always carries the message
under "message", carries a session_id field iff the most recent successful
response supplied a non-empty session id, and an ok outcome stores the
response and session_id fields of the reply as the new displayed response
and session id. -/
theorem vmHandleChat_form_and_session (l : List (String × ChatOutcome))
    (m : String) (out : ChatOutcome) :
    (requestsTo vmChatUrl (vmHandleChat (vmChatRun l) m out).2
        = [⟨vmChatUrl, vmChatForm (vmChatRun l).sessionId m⟩]) ∧
    (∀ r ∈ requestsTo vmChatUrl (vmHandleChat (vmChatRun l) m out).2,
        formField "message" r.parts = some m ∧
        ((formField "session_id" r.parts).isSome = true
          ↔ ∃ s, lastSuccessSid l = some s ∧ s ≠ "")) ∧
    (∀ resp sid, out = ChatOutcome.http true resp sid →
        (vmHandleChat (vmChatRun l) m out).1.response = resp ∧
        (vmHandleChat (vmChatRun l) m out).1.sessionId = some sid) := by
  have hreq : requestsTo vmChatUrl (vmHandleChat (vmChatRun l) m out).2
      = [⟨vmChatUrl, vmChatForm (vmChatRun l).sessionId m⟩] := by
    cases out with
    | netFail =>
        simp [vmHandleChat, requestsTo_cons_same, requestsTo_cons_other,
              requestsTo_nil, isReqTo_toast]
    | http ok r s =>
        cases ok <;>
          simp [vmHandleChat, requestsTo_cons_same, requestsTo_cons_other,
                requestsTo_nil, isReqTo_toast, isReqTo_speak]
  refine ⟨hreq, ?_, ?_⟩
  · intro r hr
    rw [hreq] at hr
    have := List.mem_singleton.mp hr
    subst this
    refine ⟨formField_message_vmChatForm _ _, ?_⟩
    rw [formField_sid_isSome, vmChatRun_sessionId]
  · intro resp sid hout
    subst hout
    exact ⟨rfl, rfl⟩

/-- Witness for C1: after a successful response supplying session id "abc",
the next request carries both fields. -/
theorem vmHandleChat_form_and_session_witness :
    formField "message" [FormPart.field "session_id" "abc", FormPart.field "message" "m2"]
        = some "m2" ∧
    ((formField "session_id"
        [FormPart.field "session_id" "abc", FormPart.field "message" "m2"]).isSome = true
      ↔ ∃ s, lastSuccessSid [("m", ChatOutcome.http true "r" "abc")] = some s ∧ s ≠ "") :=
  (vmHandleChat_form_and_session [("m", ChatOutcome.http true "r" "abc")] "m2"
      ChatOutcome.netFail).2.1
    ⟨vmChatUrl, [FormPart.field "session_id" "abc", FormPart.field "message" "m2"]⟩
    (by decide)

/-- Helper: the voice-mode processing chain never touches the listening
flag. -/
theorem vmOnStop_isListening (st : VMState) (tOut : TranscribeOutcome)
    (cOut : ChatOutcome) : (vmOnStop st tOut cOut).1.isListening = st.isListening := by
  cases tOut with
  | netFail => rfl
  | http ok t =>
      cases ok with
      | false => rfl
      | true =>
          cases cOut with
          | netFail => rfl
          | http cok r s => cases cok <;> rfl

/-- Helper: a VoiceMode machine step preserves "listening implies idle
speech synthesis". -/
theorem vmStep_preserves_idle (w : VMWorld) (e : VMEvent)
    (h : w.vm.isListening = true →
        w.speech.speaking = false ∧ w.speech.pending = false) :
    (vmStep w e).vm.isListening = true →
      (vmStep w e).speech.speaking = false ∧ (vmStep w e).speech.pending = false := by
  cases e with
  | startClick micOk =>
      simp only [vmStep]
      by_cases hg : (w.vm.isProcessing || w.vm.isListening) = true
      · simp only [if_pos hg]
        exact h
      · simp only [if_neg hg]
        intro _
        have hb := Bool.or_eq_false_iff.mp (Bool.eq_false_iff.mpr hg)
        cases micOk <;>
          by_cases ha : (w.speech.speaking || w.speech.pending) = true <;>
            simp_all [vmStartListening, Bool.or_eq_false_iff]
  | stopClick tOut cOut =>
      simp only [vmStep]
      by_cases hg : (w.vm.isProcessing || !w.vm.isListening) = true
      · simp only [if_pos hg]
        exact h
      · simp only [if_neg hg]
        intro hl
        exfalso
        have hfalse : (vmStopAndProcess w tOut cOut).1.vm.isListening = false := by
          show (vmOnStop { w.vm with isListening := false } tOut cOut).1.isListening = false
          rw [vmOnStop_isListening]
        rw [hfalse] at hl
        cases hl

/-- C7: in every reachable state of the voice-mode machine, speech
synthesis is neither speaking nor pending while a recording is in
progress; and whenever speech is active, `startListening` emits the cancel
before any other action. -/
theorem vm_recording_cancels_speech :
    (∀ evts : List VMEvent, (vmRun evts).vm.isListening = true →
        (vmRun evts).speech.speaking = false ∧ (vmRun evts).speech.pending = false) ∧
    (∀ (w : VMWorld) (micOk : Bool), (w.speech.speaking || w.speech.pending) = true →
        ∃ rest, (vmStartListening w micOk).2 = Effect.cancelSpeech :: rest) := by
  constructor
  · have main : ∀ (evts : List VMEvent) (w : VMWorld),
        (w.vm.isListening = true →
            w.speech.speaking = false ∧ w.speech.pending = false) →
        (evts.foldl vmStep w).vm.isListening = true →
          (evts.foldl vmStep w).speech.speaking = false ∧
          (evts.foldl vmStep w).speech.pending = false := by
      intro evts
      induction evts with
      | nil => intro w h; exact h
      | cons e es ih =>
          intro w h
          exact ih (vmStep w e) (vmStep_preserves_idle w e h)
    intro evts
    exact main evts initVMWorld (fun _ => ⟨rfl, rfl⟩)
  · intro w micOk ha
    cases micOk with
    | false =>
        exact ⟨[Effect.toast "Error" "Could not access microphone"],
               by simp [vmStartListening, ha]⟩
    | true =>
        exact ⟨[Effect.recordStart], by simp [vmStartListening, ha]⟩

/-- Witness for C7: after a start click the machine is listening with idle
speech synthesis. -/
theorem vm_recording_cancels_speech_witness :
    (vmRun [VMEvent.startClick true]).speech.speaking = false ∧
    (vmRun [VMEvent.startClick true]).speech.pending = false :=
  vm_recording_cancels_speech.1 [VMEvent.startClick true] (by decide)

/-- Counterexample to C3 as stated: in the chat-panel voice flow a chat
request is issued and comes back non-2xx, yet the trace contains no toast:
this failure path produces no user-facing notification. -/
theorem chat_panel_silent_failure_counterexample :
    countReqTo ciChatUrl (ciVoiceOnStop initCIState 1 2 3 "u"
        (TranscribeOutcome.http true "hi") (ChatOutcome.http false "oops" "")).2 = 1 ∧
    countToasts (ciVoiceOnStop initCIState 1 2 3 "u"
        (TranscribeOutcome.http true "hi") (ChatOutcome.http false "oops" "")).2 = 0 := by
  decide

/-- C3 (amended): every failure path of the modelled handlers — microphone
denial, thrown fetches, non-2xx responses — raises exactly one toast,
except the non-2xx chat response inside the chat-panel voice flow, which
is silently dropped; no handler run ever issues more than one request per
endpoint or more than one toast, so no failure triggers a retry or any
recovery beyond the notification. -/
theorem failures_toast_no_retry (w : VMWorld) (st : VMState) (ci : CIState)
    (micOk : Bool) (n1 n2 bn : Nat) (url fname : String) (hasFile : Bool)
    (tOut : TranscribeOutcome) (cOut : ChatOutcome) :
    (micOk = false → countToasts (vmStartListening w micOk).2 = 1 ∧
                     countToasts (ciStartVoice ci micOk).2 = 1) ∧
    (tFails tOut = true → countToasts (vmHandleTranscription st tOut cOut).2 = 1) ∧
    (tFails tOut = false → cFails cOut = true →
        countToasts (vmHandleTranscription st tOut cOut).2 = 1) ∧
    (countReqTo vmTranscribeUrl (vmHandleTranscription st tOut cOut).2 = 1 ∧
     countReqTo vmChatUrl (vmHandleTranscription st tOut cOut).2 ≤ 1 ∧
     countToasts (vmHandleTranscription st tOut cOut).2 ≤ 1) ∧
    (tFails tOut = true → countToasts (ciVoiceOnStop ci n1 n2 bn url tOut cOut).2 = 1) ∧
    (tOut = TranscribeOutcome.http true "" →
        countToasts (ciVoiceOnStop ci n1 n2 bn url tOut cOut).2 = 1) ∧
    (∀ t, t ≠ "" → tOut = TranscribeOutcome.http true t → cOut = ChatOutcome.netFail →
        countToasts (ciVoiceOnStop ci n1 n2 bn url tOut cOut).2 = 1) ∧
    (countReqTo ciTranscribeUrl (ciVoiceOnStop ci n1 n2 bn url tOut cOut).2 = 1 ∧
     countReqTo ciChatUrl (ciVoiceOnStop ci n1 n2 bn url tOut cOut).2 ≤ 1 ∧
     countToasts (ciVoiceOnStop ci n1 n2 bn url tOut cOut).2 ≤ 1) ∧
    (jsTrim ci.inputMessage ≠ "" → cFails cOut = true →
        countToasts (handleSendMessage ci n1 n2 cOut).2 = 1) ∧
    (countReqTo ciChatUrl (handleSendMessage ci n1 n2 cOut).2 ≤ 1 ∧
     countToasts (handleSendMessage ci n1 n2 cOut).2 ≤ 1) ∧
    (hasFile = true → cFails cOut = true →
        countToasts (handleFileUpload ci n1 n2 hasFile url fname cOut).2 = 1) ∧
    (countReqTo ciChatUrl (handleFileUpload ci n1 n2 hasFile url fname cOut).2 ≤ 1 ∧
     countToasts (handleFileUpload ci n1 n2 hasFile url fname cOut).2 ≤ 1) := by
  refine ⟨?_, ?_, ?_, ?_, ?_, ?_, ?_, ?_, ?_, ?_, ?_, ?_⟩
  · intro hm
    subst hm
    constructor
    · by_cases ha : (w.speech.speaking || w.speech.pending) = true <;>
        simp [vmStartListening, ha, countToasts_cons, countToasts_nil,
              isToast_toast, isToast_cancel]
    · simp [ciStartVoice, countToasts_cons, countToasts_nil, isToast_toast]
  · intro hf
    cases tOut with
    | netFail =>
        simp [vmHandleTranscription, countToasts_cons, countToasts_nil,
              isToast_toast, isToast_req]
    | http ok t =>
        cases ok with
        | false =>
            simp [vmHandleTranscription, countToasts_cons, countToasts_nil,
                  isToast_toast, isToast_req]
        | true => simp [tFails] at hf
  · intro hok hf
    cases tOut with
    | netFail => simp [tFails] at hok
    | http ok t =>
        cases ok with
        | false => simp [tFails] at hok
        | true =>
            cases cOut with
            | netFail =>
                simp [vmHandleTranscription, vmHandleChat, countToasts_cons,
                      countToasts_nil, isToast_toast, isToast_req, isToast_speak]
            | http cok r s =>
                cases cok with
                | false =>
                    simp [vmHandleTranscription, vmHandleChat, countToasts_cons,
                          countToasts_nil, isToast_toast, isToast_req, isToast_speak]
                | true => simp [cFails] at hf
  · cases tOut with
    | netFail =>
        refine ⟨?_, ?_, ?_⟩ <;>
          simp [vmHandleTranscription, countReqTo_cons, countReqTo_nil,
                countToasts_cons, countToasts_nil, isReqTo_same, isReqTo_vm_chat,
                isReqTo_vm_trans, isReqTo_toast, isToast_toast, isToast_req]
    | http ok t =>
        cases ok with
        | false =>
            refine ⟨?_, ?_, ?_⟩ <;>
              simp [vmHandleTranscription, countReqTo_cons, countReqTo_nil,
                    countToasts_cons, countToasts_nil, isReqTo_same, isReqTo_vm_chat,
                    isReqTo_vm_trans, isReqTo_toast, isToast_toast, isToast_req]
        | true =>
            cases cOut with
            | netFail =>
                refine ⟨?_, ?_, ?_⟩ <;>
                  simp [vmHandleTranscription, vmHandleChat, countReqTo_cons,
                        countReqTo_nil, countToasts_cons, countToasts_nil,
                        isReqTo_same, isReqTo_vm_chat, isReqTo_vm_trans,
                        isReqTo_toast, isReqTo_speak, isToast_toast, isToast_req,
                        isToast_speak]
            | http cok r s =>
                cases cok <;>
                  refine ⟨?_, ?_, ?_⟩ <;>
                    simp [vmHandleTranscription, vmHandleChat, countReqTo_cons,
                          countReqTo_nil, countToasts_cons, countToasts_nil,
                          isReqTo_same, isReqTo_vm_chat, isReqTo_vm_trans,
                          isReqTo_toast, isReqTo_speak, isToast_toast, isToast_req,
                          isToast_speak]
  · intro hf
    cases tOut with
    | netFail =>
        simp [ciVoiceOnStop, countToasts_cons, countToasts_nil, isToast_toast,
              isToast_req, isToast_addMsg]
    | http ok t =>
        cases ok with
        | false =>
            simp [ciVoiceOnStop, countToasts_cons, countToasts_nil, isToast_toast,
                  isToast_req, isToast_addMsg]
        | true => simp [tFails] at hf
  · intro he
    subst he
    simp [ciVoiceOnStop, countToasts_cons, countToasts_nil, isToast_toast,
          isToast_req, isToast_addMsg]
  · intro t ht hteq hceq
    subst hteq
    subst hceq
    simp [ciVoiceOnStop, ht, countToasts_cons, countToasts_nil, isToast_toast,
          isToast_req, isToast_addMsg]
  · cases tOut with
    | netFail =>
        refine ⟨?_, ?_, ?_⟩ <;>
          simp [ciVoiceOnStop, countReqTo_cons, countReqTo_nil, countToasts_cons,
                countToasts_nil, isReqTo_same, isReqTo_ci_chat, isReqTo_ci_trans,
                isReqTo_toast, isReqTo_addMsg, isToast_toast, isToast_req,
                isToast_addMsg]
    | http ok t =>
        cases ok with
        | false =>
            refine ⟨?_, ?_, ?_⟩ <;>
              simp [ciVoiceOnStop, countReqTo_cons, countReqTo_nil, countToasts_cons,
                    countToasts_nil, isReqTo_same, isReqTo_ci_chat, isReqTo_ci_trans,
                    isReqTo_toast, isReqTo_addMsg, isToast_toast, isToast_req,
                    isToast_addMsg]
        | true =>
            by_cases ht : t = ""
            · refine ⟨?_, ?_, ?_⟩ <;>
                simp [ciVoiceOnStop, ht, countReqTo_cons, countReqTo_nil,
                      countToasts_cons, countToasts_nil, isReqTo_same, isReqTo_ci_chat,
                      isReqTo_ci_trans, isReqTo_toast, isReqTo_addMsg, isToast_toast,
                      isToast_req, isToast_addMsg]
            · cases cOut with
              | netFail =>
                  refine ⟨?_, ?_, ?_⟩ <;>
                    simp [ciVoiceOnStop, ht, countReqTo_cons, countReqTo_nil,
                          countToasts_cons, countToasts_nil, isReqTo_same,
                          isReqTo_ci_chat, isReqTo_ci_trans, isReqTo_toast,
                          isReqTo_addMsg, isToast_toast, isToast_req, isToast_addMsg]
              | http cok r s =>
                  cases cok <;>
                    refine ⟨?_, ?_, ?_⟩ <;>
                      simp [ciVoiceOnStop, ht, countReqTo_cons, countReqTo_nil,
                            countToasts_cons, countToasts_nil, isReqTo_same,
                            isReqTo_ci_chat, isReqTo_ci_trans, isReqTo_toast,
                            isReqTo_addMsg, isToast_toast, isToast_req, isToast_addMsg]
  · intro hin hf
    cases cOut with
    | netFail =>
        simp [handleSendMessage, hin, countToasts_cons, countToasts_nil,
              isToast_toast, isToast_req, isToast_addMsg]
    | http cok r s =>
        cases cok with
        | false =>
            simp [handleSendMessage, hin, countToasts_cons, countToasts_nil,
                  isToast_toast, isToast_req, isToast_addMsg]
        | true => simp [cFails] at hf
  · by_cases hin : jsTrim ci.inputMessage = ""
    · constructor <;> simp [handleSendMessage, hin, countReqTo_nil, countToasts_nil]
    · cases cOut with
      | netFail =>
          constructor <;>
            simp [handleSendMessage, hin, countReqTo_cons, countReqTo_nil,
                  countToasts_cons, countToasts_nil, isReqTo_same, isReqTo_toast,
                  isReqTo_addMsg, isToast_toast, isToast_req, isToast_addMsg]
      | http cok r s =>
          cases cok <;>
            constructor <;>
              simp [handleSendMessage, hin, countReqTo_cons, countReqTo_nil,
                    countToasts_cons, countToasts_nil, isReqTo_same, isReqTo_toast,
                    isReqTo_addMsg, isToast_toast, isToast_req, isToast_addMsg]
  · intro hh hf
    subst hh
    cases cOut with
    | netFail =>
        simp [handleFileUpload, countToasts_cons, countToasts_nil, isToast_toast,
              isToast_req, isToast_addMsg]
    | http cok r s =>
        cases cok with
        | false =>
            simp [handleFileUpload, countToasts_cons, countToasts_nil, isToast_toast,
                  isToast_req, isToast_addMsg]
        | true => simp [cFails] at hf
  · cases hasFile with
    | false => constructor <;> simp [handleFileUpload, countReqTo_nil, countToasts_nil]
    | true =>
        cases cOut with
        | netFail =>
            constructor <;>
              simp [handleFileUpload, countReqTo_cons, countReqTo_nil,
                    countToasts_cons, countToasts_nil, isReqTo_same, isReqTo_toast,
                    isReqTo_addMsg, isToast_toast, isToast_req, isToast_addMsg]
        | http cok r s =>
            cases cok <;>
              constructor <;>
                simp [handleFileUpload, countReqTo_cons, countReqTo_nil,
                      countToasts_cons, countToasts_nil, isReqTo_same, isReqTo_toast,
                      isReqTo_addMsg, isToast_toast, isToast_req, isToast_addMsg]

/-- Witness for C3: a thrown transcription fetch in voice mode raises
exactly one toast. -/
theorem failures_toast_no_retry_witness :
    countToasts (vmHandleTranscription initVMState TranscribeOutcome.netFail
        ChatOutcome.netFail).2 = 1 :=
  (failures_toast_no_retry initVMWorld initVMState initCIState false 1 2 3 "u" "f"
      false TranscribeOutcome.netFail ChatOutcome.netFail).2.1 rfl

end Cosmo
